import Mathlib

/-!
# walletpassphrase

A shallow embedding of `walletpassphrase.go`: a command-line program that
validates four flag values, prompts for two secrets on the terminal, builds an
RPC client and issues one `WalletPassphrase` call.

The program is effectful, so the embedding passes an explicit `State` that
records every externally visible action, in order, as a list of `Event`s.
The outcome of each library call (`os.Stat`, `ioutil.ReadFile`,
`terminal.ReadPassword`, `btcrpcclient.New`, `Client.WalletPassphrase`) is
supplied by a `World`, over which all theorems quantify.
-/

namespace WalletPassphrase

/-! ## Data model -/

/-- Go strings are immutable byte sequences (not necessarily valid UTF-8). -/
abbrev GoString := List UInt8

/-- The bytes of a string literal of the source (Go source text is UTF-8). -/
def lit (s : String) : GoString := s.toUTF8.data.toList

/-- An error value produced by a library call. `notExist` is what
`os.IsNotExist` reports for it. -/
structure LibError where
  msg : GoString
  notExist : Bool
deriving DecidableEq, Repr

/-- Go `error` values seen by the program: either allocated by the program
itself through `errors.New` / `fmt.Errorf`, or handed back by a library call.
Every value allocated by `errors.New` is distinct from every error a library
returned, even when the texts agree. -/
inductive GoError where
  | new (msg : GoString)
  | lib (e : LibError)
deriving DecidableEq, Repr

/-- The `Error()` method: the text of an error. -/
def GoError.Error : GoError → GoString
  | .new msg => msg
  | .lib e => e.msg

/-- Model of `os.IsNotExist`. -/
def IsNotExist : GoError → Bool
  | .new _ => false
  | .lib e => e.notExist

/-- The fields of `btcrpcclient.ConnConfig` that the program sets. -/
structure ConnConfig where
  Host : GoString
  User : GoString
  Pass : GoString
  Certificates : List UInt8
  HTTPPostMode : Bool
deriving DecidableEq, Repr

/-- A constructed RPC client; it is determined by its connection config. -/
structure Client where
  config : ConnConfig
deriving DecidableEq, Repr

/-- The four package-level flag variables after `flag.Parse()`. `seconds` is
an `int64`; the program only compares it with constants and prints it, so no
arithmetic can overflow and it is kept as an integer. -/
structure Flags where
  host : GoString
  rpcUser : GoString
  certFile : GoString
  seconds : Int
deriving DecidableEq, Repr

def defaultNetworkAddress : GoString := lit "localhost:8332"

def defaultSeconds : Int := 60

/-- Externally visible actions of a run, in the order they are performed. -/
inductive Event where
  /-- Call of `os.Stat(path)`. -/
  | stat (path : GoString)
  /-- One write to standard output. -/
  | stdout (s : GoString)
  /-- Call of `terminal.ReadPassword(fd)` on standard input: a read with echo off. -/
  | readPassword
  /-- Call of `ioutil.ReadFile(path)`. -/
  | readFile (path : GoString)
  /-- Call of `btcrpcclient.New(cfg, nil)`. -/
  | newClient (cfg : ConnConfig)
  /-- Call of `client.WalletPassphrase(pass, secs)`. -/
  | walletPassphrase (client : Client) (pass : GoString) (secs : Int)
deriving DecidableEq, Repr

/-- Whether an event is a client construction. -/
def Event.isNewClient : Event → Bool
  | .newClient _ => true
  | _ => false

/-- Whether an event is an unlock call. -/
def Event.isWalletPassphrase : Event → Bool
  | .walletPassphrase _ _ _ => true
  | _ => false

/-- Outcomes of the library calls the program makes. `readPassword k` is the
outcome of the `k`-th terminal read of the run (counting from 0). -/
structure World where
  stat : GoString → Option LibError
  readFile : GoString → Except LibError (List UInt8)
  readPassword : Nat → Except LibError (List UInt8)
  newClient : ConnConfig → Option LibError
  walletPassphrase : Client → GoString → Int → Option LibError

/-- Run state: the trace of events so far and the number of terminal reads
already performed. -/
structure State where
  trace : List Event
  reads : Nat
deriving DecidableEq, Repr

/-- State at program start. -/
def State.start : State := { trace := [], reads := 0 }

/-- Append one event to the trace. -/
def State.emit (s : State) (e : Event) : State :=
  { s with trace := s.trace ++ [e] }

/-- Everything written to standard output in a trace, concatenated. -/
def stdoutOf : List Event → GoString
  | [] => []
  | .stdout s :: rest => s ++ stdoutOf rest
  | _ :: rest => stdoutOf rest

/-- Formatting of an `int64` under the verb `%d`. -/
def fmtD (n : Int) : GoString := lit (toString n)

/-! ## The program -/

/-- Embedding of `fileExists`. -/
def fileExists (w : World) (filePath : GoString) (s : State) :
    (Bool × Option GoError) × State :=
  let s := s.emit (.stat filePath)
  match w.stat filePath with
  | some e =>
    if IsNotExist (.lib e) then
      ((false, none), s)
    else
      ((false, some (.lib e)), s)
  | none => ((true, none), s)

/-- Embedding of `promptSecret`. -/
def promptSecret (w : World) (what : GoString) (s : State) :
    (GoString × Option GoError) × State :=
  let s := s.emit (.stdout (what ++ lit ": "))
  let r := w.readPassword s.reads
  let s := { s.emit .readPassword with reads := s.reads + 1 }
  let s := s.emit (.stdout (lit "\n"))
  match r with
  | .error e => (([], some (.lib e)), s)
  | .ok input => ((input, none), s)

def errNoUser : GoError := .new (lit "No RPC username (use -u to set)")

def errNegative : GoError := .new (lit "Negative seconds option (use -s to set)")

def errInsane : GoError :=
  .new (lit "Insane seconds value exceeds 1hr (use -s to set)")

/-- The value of `fmt.Errorf` applied to the format
"TLS certificate file [backquote]%s[backquote] not found (use -cert to set)"
and the path. -/
def errCertNotFound (path : GoString) : GoError :=
  .new (lit "TLS certificate file `" ++ path ++ lit "` not found (use -cert to set)")

/-- The line written on success, `"Wallet unlocked for %d seconds.\n"`. -/
def successLine (secs : Int) : GoString :=
  lit "Wallet unlocked for " ++ fmtD secs ++ lit " seconds.\n"

/-- Embedding of `unlock`. -/
def unlock (w : World) (f : Flags) (s : State) : Option GoError × State :=
  if f.rpcUser = [] then
    (some errNoUser, s)
  else if f.seconds < 0 then
    (some errNegative, s)
  else if f.seconds > 60 * 60 then
    (some errInsane, s)
  else
    match fileExists w f.certFile s with
    | ((_, some err), s) => (some err, s)
    | ((certExists, none), s) =>
      if !certExists then
        (some (errCertNotFound f.certFile), s)
      else
        match promptSecret w (lit "RPC password") s with
        | ((_, some err), s) => (some err, s)
        | ((rpcPass, none), s) =>
          let s := s.emit (.readFile f.certFile)
          match w.readFile f.certFile with
          | .error err => (some (.lib err), s)
          | .ok certs =>
            let cfg : ConnConfig :=
              { Host := f.host, User := f.rpcUser, Pass := rpcPass,
                Certificates := certs, HTTPPostMode := true }
            let s := s.emit (.newClient cfg)
            match w.newClient cfg with
            | some err => (some (.lib err), s)
            | none =>
              let client : Client := { config := cfg }
              match promptSecret w (lit "Wallet passphrase") s with
              | ((_, some err), s) => (some err, s)
              | ((pass, none), s) =>
                let s := s.emit (.walletPassphrase client pass f.seconds)
                match w.walletPassphrase client pass f.seconds with
                | some err => (some (.lib err), s)
                | none =>
                  let s := s.emit (.stdout (successLine f.seconds))
                  (none, s)

/-- Embedding of `main` after `flag.Parse()`: the exit status of the process
and the final state. Returning from `main` is exit status 0. -/
def main (w : World) (f : Flags) : Nat × State :=
  match unlock w f State.start with
  | (some err, s) =>
    let s := s.emit (.stdout (err.Error ++ lit "\n"))
    (1, s)
  | (none, s) => (0, s)

/-! ## Evaluation lemmas -/

section Paths

variable (w : World) (f : Flags)

/-- The connection config `unlock` builds from the flags, the first secret and
the certificate bytes. -/
def connConfigOf (f : Flags) (rpcPass : GoString) (certs : List UInt8) : ConnConfig :=
  { Host := f.host, User := f.rpcUser, Pass := rpcPass,
    Certificates := certs, HTTPPostMode := true }

/-- The three events of one `promptSecret` call. -/
def promptEvents (what : GoString) : List Event :=
  [.stdout (what ++ lit ": "), .readPassword, .stdout (lit "\n")]

theorem promptSecret_ok (what : GoString) (s : State) (b : List UInt8)
    (h : w.readPassword s.reads = .ok b) :
    promptSecret w what s
      = ((b, none), { trace := s.trace ++ promptEvents what, reads := s.reads + 1 }) := by
  simp [promptSecret, State.emit, promptEvents, h]

theorem promptSecret_error (what : GoString) (s : State) (e : LibError)
    (h : w.readPassword s.reads = .error e) :
    promptSecret w what s
      = (([], some (.lib e)),
          { trace := s.trace ++ promptEvents what, reads := s.reads + 1 }) := by
  simp [promptSecret, State.emit, promptEvents, h]

/-- Validation of the flag values passes: what the first three tests of
`unlock` require. -/
def FlagsOk (f : Flags) : Prop :=
  f.rpcUser ≠ [] ∧ 0 ≤ f.seconds ∧ f.seconds ≤ 3600

instance (f : Flags) : Decidable (FlagsOk f) := by
  unfold FlagsOk; infer_instance

theorem unlock_noUser (s : State) (h : f.rpcUser = []) :
    unlock w f s = (some errNoUser, s) := by
  simp [unlock, h]

theorem unlock_negative (s : State) (hu : f.rpcUser ≠ []) (h : f.seconds < 0) :
    unlock w f s = (some errNegative, s) := by
  simp [unlock, hu, h]

theorem unlock_insane (s : State) (hu : f.rpcUser ≠ []) (h : 3600 < f.seconds) :
    unlock w f s = (some errInsane, s) := by
  have h0 : ¬ f.seconds < 0 := by omega
  simp [unlock, hu, h0, h]

theorem unlock_statError (hf : FlagsOk f) (e : LibError)
    (hs : w.stat f.certFile = some e) (hn : e.notExist = false) :
    unlock w f State.start
      = (some (.lib e), { trace := [.stat f.certFile], reads := 0 }) := by
  obtain ⟨hu, h0, h1⟩ := hf
  have h0 : ¬ f.seconds < 0 := by omega
  have h1 : ¬ 3600 < f.seconds := by omega
  simp [unlock, fileExists, State.emit, State.start, IsNotExist, hu, h0, h1, hs, hn]

theorem unlock_notFound (hf : FlagsOk f) (e : LibError)
    (hs : w.stat f.certFile = some e) (hn : e.notExist = true) :
    unlock w f State.start
      = (some (errCertNotFound f.certFile),
          { trace := [.stat f.certFile], reads := 0 }) := by
  obtain ⟨hu, h0, h1⟩ := hf
  have h0 : ¬ f.seconds < 0 := by omega
  have h1 : ¬ 3600 < f.seconds := by omega
  simp [unlock, fileExists, State.emit, State.start, IsNotExist, hu, h0, h1, hs, hn]

theorem unlock_rpcPassError (hf : FlagsOk f) (e : LibError)
    (hs : w.stat f.certFile = none) (hp : w.readPassword 0 = .error e) :
    unlock w f State.start
      = (some (.lib e),
          { trace := .stat f.certFile :: promptEvents (lit "RPC password"),
            reads := 1 }) := by
  obtain ⟨hu, h0, h1⟩ := hf
  have h0 : ¬ f.seconds < 0 := by omega
  have h1 : ¬ 3600 < f.seconds := by omega
  simp [unlock, fileExists, promptSecret, promptEvents, State.emit, State.start,
    hu, h0, h1, hs, hp]

/-- Trace of a run up to and including the certificate read. -/
def traceToRead (f : Flags) : List Event :=
  .stat f.certFile :: promptEvents (lit "RPC password") ++ [.readFile f.certFile]

/-- Trace of a run up to and including the client construction. -/
def traceToNew (f : Flags) (rpcPass : GoString) (certs : List UInt8) : List Event :=
  traceToRead f ++ [.newClient (connConfigOf f rpcPass certs)]

/-- Trace of a run up to and including the second prompt. -/
def traceToPass (f : Flags) (rpcPass : GoString) (certs : List UInt8) : List Event :=
  traceToNew f rpcPass certs ++ promptEvents (lit "Wallet passphrase")

/-- Trace of a run up to and including the unlock call. -/
def traceToCall (f : Flags) (rpcPass : GoString) (certs : List UInt8)
    (pass : GoString) : List Event :=
  traceToPass f rpcPass certs ++
    [.walletPassphrase { config := connConfigOf f rpcPass certs } pass f.seconds]

theorem unlock_readError (hf : FlagsOk f) (rpcPass : GoString) (e : LibError)
    (hs : w.stat f.certFile = none) (hp : w.readPassword 0 = .ok rpcPass)
    (hr : w.readFile f.certFile = .error e) :
    unlock w f State.start
      = (some (.lib e), { trace := traceToRead f, reads := 1 }) := by
  obtain ⟨hu, h0, h1⟩ := hf
  have h0 : ¬ f.seconds < 0 := by omega
  have h1 : ¬ 3600 < f.seconds := by omega
  simp [unlock, fileExists, promptSecret, promptEvents, traceToRead, State.emit,
    State.start, hu, h0, h1, hs, hp, hr]

theorem unlock_newError (hf : FlagsOk f) (rpcPass : GoString) (certs : List UInt8)
    (e : LibError)
    (hs : w.stat f.certFile = none) (hp : w.readPassword 0 = .ok rpcPass)
    (hr : w.readFile f.certFile = .ok certs)
    (hc : w.newClient (connConfigOf f rpcPass certs) = some e) :
    unlock w f State.start
      = (some (.lib e), { trace := traceToNew f rpcPass certs, reads := 1 }) := by
  obtain ⟨hu, h0, h1⟩ := hf
  have h0 : ¬ f.seconds < 0 := by omega
  have h1 : ¬ 3600 < f.seconds := by omega
  unfold connConfigOf at hc
  simp [unlock, fileExists, promptSecret, promptEvents, traceToRead, traceToNew,
    connConfigOf, State.emit, State.start, hu, h0, h1, hs, hp, hr, hc]

theorem unlock_passError (hf : FlagsOk f) (rpcPass : GoString) (certs : List UInt8)
    (e : LibError)
    (hs : w.stat f.certFile = none) (hp : w.readPassword 0 = .ok rpcPass)
    (hr : w.readFile f.certFile = .ok certs)
    (hc : w.newClient (connConfigOf f rpcPass certs) = none)
    (hq : w.readPassword 1 = .error e) :
    unlock w f State.start
      = (some (.lib e), { trace := traceToPass f rpcPass certs, reads := 2 }) := by
  obtain ⟨hu, h0, h1⟩ := hf
  have h0 : ¬ f.seconds < 0 := by omega
  have h1 : ¬ 3600 < f.seconds := by omega
  unfold connConfigOf at hc
  simp [unlock, fileExists, promptSecret, promptEvents, traceToRead, traceToNew,
    traceToPass, connConfigOf, State.emit, State.start, hu, h0, h1, hs, hp, hr, hc, hq]

theorem unlock_callError (hf : FlagsOk f) (rpcPass : GoString) (certs : List UInt8)
    (pass : GoString) (e : LibError)
    (hs : w.stat f.certFile = none) (hp : w.readPassword 0 = .ok rpcPass)
    (hr : w.readFile f.certFile = .ok certs)
    (hc : w.newClient (connConfigOf f rpcPass certs) = none)
    (hq : w.readPassword 1 = .ok pass)
    (hw : w.walletPassphrase { config := connConfigOf f rpcPass certs } pass f.seconds
            = some e) :
    unlock w f State.start
      = (some (.lib e), { trace := traceToCall f rpcPass certs pass, reads := 2 }) := by
  obtain ⟨hu, h0, h1⟩ := hf
  have h0 : ¬ f.seconds < 0 := by omega
  have h1 : ¬ 3600 < f.seconds := by omega
  unfold connConfigOf at hc hw
  simp [unlock, fileExists, promptSecret, promptEvents, traceToRead, traceToNew,
    traceToPass, traceToCall, connConfigOf, State.emit, State.start, hu, h0, h1, hs,
    hp, hr, hc, hq, hw]

theorem unlock_success (hf : FlagsOk f) (rpcPass : GoString) (certs : List UInt8)
    (pass : GoString)
    (hs : w.stat f.certFile = none) (hp : w.readPassword 0 = .ok rpcPass)
    (hr : w.readFile f.certFile = .ok certs)
    (hc : w.newClient (connConfigOf f rpcPass certs) = none)
    (hq : w.readPassword 1 = .ok pass)
    (hw : w.walletPassphrase { config := connConfigOf f rpcPass certs } pass f.seconds
            = none) :
    unlock w f State.start
      = (none, { trace := traceToCall f rpcPass certs pass ++
                   [.stdout (successLine f.seconds)], reads := 2 }) := by
  obtain ⟨hu, h0, h1⟩ := hf
  have h0 : ¬ f.seconds < 0 := by omega
  have h1 : ¬ 3600 < f.seconds := by omega
  unfold connConfigOf at hc hw
  simp [unlock, fileExists, promptSecret, promptEvents, traceToRead, traceToNew,
    traceToPass, traceToCall, connConfigOf, State.emit, State.start, hu, h0, h1, hs,
    hp, hr, hc, hq, hw]

end Paths

/-- Classification of the runs of `unlock` from the start state: each
constructor is one control-flow path of the function, with the outcomes of the
library calls that select it and the result and final state it yields. -/
inductive Run (w : World) (f : Flags) : Option GoError × State → Prop where
  | noUser : f.rpcUser = [] → Run w f (some errNoUser, State.start)
  | negative : f.rpcUser ≠ [] → f.seconds < 0 → Run w f (some errNegative, State.start)
  | insane : f.rpcUser ≠ [] → 3600 < f.seconds → Run w f (some errInsane, State.start)
  | statError (e : LibError) : FlagsOk f → w.stat f.certFile = some e →
      e.notExist = false →
      Run w f (some (.lib e), { trace := [.stat f.certFile], reads := 0 })
  | notFound (e : LibError) : FlagsOk f → w.stat f.certFile = some e →
      e.notExist = true →
      Run w f (some (errCertNotFound f.certFile),
        { trace := [.stat f.certFile], reads := 0 })
  | rpcPassError (e : LibError) : FlagsOk f → w.stat f.certFile = none →
      w.readPassword 0 = .error e →
      Run w f (some (.lib e),
        { trace := .stat f.certFile :: promptEvents (lit "RPC password"), reads := 1 })
  | readError (rpcPass : GoString) (e : LibError) : FlagsOk f →
      w.stat f.certFile = none → w.readPassword 0 = .ok rpcPass →
      w.readFile f.certFile = .error e →
      Run w f (some (.lib e), { trace := traceToRead f, reads := 1 })
  | newError (rpcPass : GoString) (certs : List UInt8) (e : LibError) : FlagsOk f →
      w.stat f.certFile = none → w.readPassword 0 = .ok rpcPass →
      w.readFile f.certFile = .ok certs →
      w.newClient (connConfigOf f rpcPass certs) = some e →
      Run w f (some (.lib e), { trace := traceToNew f rpcPass certs, reads := 1 })
  | passError (rpcPass : GoString) (certs : List UInt8) (e : LibError) : FlagsOk f →
      w.stat f.certFile = none → w.readPassword 0 = .ok rpcPass →
      w.readFile f.certFile = .ok certs →
      w.newClient (connConfigOf f rpcPass certs) = none →
      w.readPassword 1 = .error e →
      Run w f (some (.lib e), { trace := traceToPass f rpcPass certs, reads := 2 })
  | callError (rpcPass : GoString) (certs : List UInt8) (pass : GoString)
      (e : LibError) : FlagsOk f →
      w.stat f.certFile = none → w.readPassword 0 = .ok rpcPass →
      w.readFile f.certFile = .ok certs →
      w.newClient (connConfigOf f rpcPass certs) = none →
      w.readPassword 1 = .ok pass →
      w.walletPassphrase { config := connConfigOf f rpcPass certs } pass f.seconds
        = some e →
      Run w f (some (.lib e), { trace := traceToCall f rpcPass certs pass, reads := 2 })
  | success (rpcPass : GoString) (certs : List UInt8) (pass : GoString) : FlagsOk f →
      w.stat f.certFile = none → w.readPassword 0 = .ok rpcPass →
      w.readFile f.certFile = .ok certs →
      w.newClient (connConfigOf f rpcPass certs) = none →
      w.readPassword 1 = .ok pass →
      w.walletPassphrase { config := connConfigOf f rpcPass certs } pass f.seconds
        = none →
      Run w f (none, { trace := traceToCall f rpcPass certs pass ++
        [.stdout (successLine f.seconds)], reads := 2 })

/-- Every run of `unlock` from the start state follows one of the paths of
`Run`. -/
theorem unlock_run (w : World) (f : Flags) : Run w f (unlock w f State.start) := by
  by_cases hu : f.rpcUser = []
  · rw [unlock_noUser w f _ hu]; exact .noUser hu
  by_cases h0 : f.seconds < 0
  · rw [unlock_negative w f _ hu h0]; exact .negative hu h0
  by_cases h1 : 3600 < f.seconds
  · rw [unlock_insane w f _ hu h1]; exact .insane hu h1
  have hf : FlagsOk f := ⟨hu, by omega, by omega⟩
  cases hs : w.stat f.certFile with
  | some e =>
    cases hn : e.notExist with
    | false => rw [unlock_statError w f hf e hs hn]; exact .statError e hf hs hn
    | true => rw [unlock_notFound w f hf e hs hn]; exact .notFound e hf hs hn
  | none =>
    cases hp : w.readPassword 0 with
    | error e => rw [unlock_rpcPassError w f hf e hs hp]; exact .rpcPassError e hf hs hp
    | ok rpcPass =>
      cases hr : w.readFile f.certFile with
      | error e =>
        rw [unlock_readError w f hf rpcPass e hs hp hr]
        exact .readError rpcPass e hf hs hp hr
      | ok certs =>
        cases hc : w.newClient (connConfigOf f rpcPass certs) with
        | some e =>
          rw [unlock_newError w f hf rpcPass certs e hs hp hr hc]
          exact .newError rpcPass certs e hf hs hp hr hc
        | none =>
          cases hq : w.readPassword 1 with
          | error e =>
            rw [unlock_passError w f hf rpcPass certs e hs hp hr hc hq]
            exact .passError rpcPass certs e hf hs hp hr hc hq
          | ok pass =>
            cases hw : w.walletPassphrase { config := connConfigOf f rpcPass certs }
                pass f.seconds with
            | some e =>
              rw [unlock_callError w f hf rpcPass certs pass e hs hp hr hc hq hw]
              exact .callError rpcPass certs pass e hf hs hp hr hc hq hw
            | none =>
              rw [unlock_success w f hf rpcPass certs pass hs hp hr hc hq hw]
              exact .success rpcPass certs pass hf hs hp hr hc hq hw

/-! ## Facts about the literal texts -/

theorem errCertNotFound_head (p : GoString) :
    ∃ t, errCertNotFound p = .new (84 :: t) := ⟨_, rfl⟩

theorem errCertNotFound_ne_new (p m : GoString) (hm : m.head? ≠ some 84) :
    errCertNotFound p ≠ .new m := by
  obtain ⟨t, ht⟩ := errCertNotFound_head p
  rw [ht]; intro h
  apply hm
  have h2 : (84 :: t : GoString) = m := by simpa using h
  rw [← h2]; rfl

theorem errCertNotFound_ne_noUser (p : GoString) : errCertNotFound p ≠ errNoUser :=
  errCertNotFound_ne_new p _ (by decide)

theorem errCertNotFound_ne_negative (p : GoString) : errCertNotFound p ≠ errNegative :=
  errCertNotFound_ne_new p _ (by decide)

theorem errCertNotFound_ne_insane (p : GoString) : errCertNotFound p ≠ errInsane :=
  errCertNotFound_ne_new p _ (by decide)

theorem rpcPassword_label : lit "RPC password" ++ lit ": " = lit "RPC password: " := by
  decide

theorem walletPassphrase_label :
    lit "Wallet passphrase" ++ lit ": " = lit "Wallet passphrase: " := by
  decide

theorem successLine_head (d : Int) :
    ∃ t, successLine d = 87 :: 97 :: 108 :: 108 :: 101 :: 116 :: 32 :: 117 :: t :=
  ⟨_, rfl⟩

theorem successLine_ne (d : Int) (m : GoString)
    (hm : m.take 8 ≠ [87, 97, 108, 108, 101, 116, 32, 117]) : successLine d ≠ m := by
  obtain ⟨t, ht⟩ := successLine_head d
  intro h
  apply hm
  rw [← h, ht]; rfl

theorem successLine_not_mem_traceToCall (f : Flags) (d : Int) (rpcPass : GoString)
    (certs : List UInt8) (pass : GoString) :
    Event.stdout (successLine d) ∉ traceToCall f rpcPass certs pass := by
  have h1 := successLine_ne d (lit "RPC password" ++ lit ": ") (by decide)
  have h2 := successLine_ne d (lit "Wallet passphrase" ++ lit ": ") (by decide)
  have h3 := successLine_ne d (lit "\n") (by decide)
  simp [traceToCall, traceToPass, traceToNew, traceToRead, promptEvents, h1, h2, h3]

theorem successLine_not_mem_traceToPass (f : Flags) (d : Int) (rpcPass : GoString)
    (certs : List UInt8) :
    Event.stdout (successLine d) ∉ traceToPass f rpcPass certs := by
  intro h
  exact successLine_not_mem_traceToCall f d rpcPass certs [] (by simp [traceToCall, h])

theorem successLine_not_mem_traceToNew (f : Flags) (d : Int) (rpcPass : GoString)
    (certs : List UInt8) :
    Event.stdout (successLine d) ∉ traceToNew f rpcPass certs := by
  intro h
  exact successLine_not_mem_traceToPass f d rpcPass certs (by simp [traceToPass, h])

theorem successLine_not_mem_traceToRead (f : Flags) (d : Int) :
    Event.stdout (successLine d) ∉ traceToRead f := by
  intro h
  exact successLine_not_mem_traceToNew f d [] [] (by simp [traceToNew, h])

theorem successLine_not_mem_rpcPrompt (f : Flags) (d : Int) :
    Event.stdout (successLine d)
      ∉ Event.stat f.certFile :: promptEvents (lit "RPC password") := by
  intro h
  refine successLine_not_mem_traceToRead f d ?_
  simp only [traceToRead, List.cons_append, List.mem_cons, List.mem_append] at h ⊢
  tauto

/-! ## `main` in terms of `unlock` -/

theorem main_of_error (w : World) (f : Flags) (e : GoError) (s : State)
    (h : unlock w f State.start = (some e, s)) :
    main w f = (1, s.emit (.stdout (e.Error ++ lit "\n"))) := by
  simp [main, h]

theorem main_of_ok (w : World) (f : Flags) (s : State)
    (h : unlock w f State.start = (none, s)) : main w f = (0, s) := by
  simp [main, h]

/-- The success line is absent from the trace of every failing `unlock`. -/
theorem successLine_not_mem_of_error (w : World) (f : Flags) (e : GoError)
    (h : (unlock w f State.start).1 = some e) :
    Event.stdout (successLine f.seconds) ∉ (unlock w f State.start).2.trace := by
  have hr := unlock_run w f
  generalize unlock w f State.start = r at hr h
  cases hr with
  | noUser _ => simp [State.start]
  | negative _ _ => simp [State.start]
  | insane _ _ => simp [State.start]
  | statError _ _ _ _ => simp
  | notFound _ _ _ _ => simp
  | rpcPassError _ _ _ _ => exact successLine_not_mem_rpcPrompt f _
  | readError _ _ _ _ _ _ => exact successLine_not_mem_traceToRead f _
  | newError _ _ _ _ _ _ _ _ => exact successLine_not_mem_traceToNew f _ _ _
  | passError _ _ _ _ _ _ _ _ _ => exact successLine_not_mem_traceToPass f _ _ _
  | callError _ _ _ _ _ _ _ _ _ _ _ => exact successLine_not_mem_traceToCall f _ _ _ _
  | success _ _ _ _ _ _ _ _ _ _ => simp at h

/-! ## Standard output of the traces -/

theorem stdoutOf_append (a b : List Event) : stdoutOf (a ++ b) = stdoutOf a ++ stdoutOf b := by
  induction a with
  | nil => simp [stdoutOf]
  | cons e t ih => cases e <;> simp [stdoutOf, ih]

theorem stdoutOf_promptEvents (what : GoString) :
    stdoutOf (promptEvents what) = what ++ lit ": " ++ lit "\n" := by
  simp [promptEvents, stdoutOf]

theorem rpcPassword_line :
    lit "RPC password" ++ lit ": " ++ lit "\n" = lit "RPC password: \n" := by
  decide

theorem bothPrompts_line :
    lit "RPC password: \n" ++ (lit "Wallet passphrase" ++ lit ": " ++ lit "\n")
      = lit "RPC password: \nWallet passphrase: \n" := by
  decide

theorem stdoutOf_rpcPrompt (f : Flags) :
    stdoutOf (Event.stat f.certFile :: promptEvents (lit "RPC password"))
      = lit "RPC password: \n" := by
  rw [← rpcPassword_line]
  simp [stdoutOf, stdoutOf_promptEvents]

theorem stdoutOf_traceToRead (f : Flags) :
    stdoutOf (traceToRead f) = lit "RPC password: \n" := by
  rw [traceToRead, stdoutOf_append, stdoutOf_rpcPrompt]
  simp [stdoutOf]

theorem stdoutOf_traceToNew (f : Flags) (rpcPass : GoString) (certs : List UInt8) :
    stdoutOf (traceToNew f rpcPass certs) = lit "RPC password: \n" := by
  rw [traceToNew, stdoutOf_append, stdoutOf_traceToRead]
  simp [stdoutOf]

theorem stdoutOf_traceToPass (f : Flags) (rpcPass : GoString) (certs : List UInt8) :
    stdoutOf (traceToPass f rpcPass certs)
      = lit "RPC password: \nWallet passphrase: \n" := by
  rw [traceToPass, stdoutOf_append, stdoutOf_traceToNew, stdoutOf_promptEvents,
    bothPrompts_line]

theorem stdoutOf_traceToCall (f : Flags) (rpcPass : GoString) (certs : List UInt8)
    (pass : GoString) :
    stdoutOf (traceToCall f rpcPass certs pass)
      = lit "RPC password: \nWallet passphrase: \n" := by
  rw [traceToCall, stdoutOf_append, stdoutOf_traceToPass]
  simp [stdoutOf]

theorem count_promptEvents (what : GoString) :
    (promptEvents what).count .readPassword = 1 := by
  simp [promptEvents, List.count_cons]

theorem count_traceToRead (f : Flags) : (traceToRead f).count .readPassword = 1 := by
  simp [traceToRead, List.count_cons, count_promptEvents]

theorem count_traceToNew (f : Flags) (rpcPass : GoString) (certs : List UInt8) :
    (traceToNew f rpcPass certs).count .readPassword = 1 := by
  simp [traceToNew, count_traceToRead, List.count_cons]

theorem count_traceToPass (f : Flags) (rpcPass : GoString) (certs : List UInt8) :
    (traceToPass f rpcPass certs).count .readPassword = 2 := by
  simp [traceToPass, count_traceToNew, count_promptEvents]

theorem count_traceToCall (f : Flags) (rpcPass : GoString) (certs : List UInt8)
    (pass : GoString) :
    (traceToCall f rpcPass certs pass).count .readPassword = 2 := by
  simp [traceToCall, count_traceToPass, List.count_cons]

/-! ## Concrete runs used as witnesses -/

/-- Scenario A flags: user "alice", 60 seconds. -/
def flagsAlice : Flags :=
  { host := defaultNetworkAddress, rpcUser := lit "alice",
    certFile := lit "rpc.cert", seconds := 60 }

/-- A world in which every library call succeeds. -/
def worldOk : World :=
  { stat := fun _ => none
    readFile := fun _ => .ok (lit "PEM")
    readPassword := fun k => if k = 0 then .ok (lit "pw") else .ok (lit "hunter2")
    newClient := fun _ => none
    walletPassphrase := fun _ _ _ => none }

/-- A library error used in concrete runs. -/
def errDenied : LibError := { msg := lit "permission denied", notExist := false }

/-- A library error for which `os.IsNotExist` holds. -/
def errMissing : LibError := { msg := lit "no such file or directory", notExist := true }

/-! ## Claims -/

/-- C10: `promptSecret(label)` writes exactly the label followed by ": ", then
performs one no-echo terminal read, then writes one newline, whether or not
the read succeeded; on a successful read of bytes `b` it returns exactly `b`
and no error, on a failed read with error `e` it returns the empty string and
`e`. -/
theorem promptSecret_spec (w : World) (what : GoString) (s : State) :
    (promptSecret w what s).2.trace
        = s.trace ++ [.stdout (what ++ lit ": "), .readPassword, .stdout (lit "\n")] ∧
    (promptSecret w what s).2.reads = s.reads + 1 ∧
    (∀ b, w.readPassword s.reads = .ok b → (promptSecret w what s).1 = (b, none)) ∧
    (∀ e, w.readPassword s.reads = .error e →
      (promptSecret w what s).1 = ([], some (.lib e))) := by
  refine ⟨?_, ?_, ?_, ?_⟩
  · cases h : w.readPassword s.reads <;> simp [promptSecret, State.emit, h]
  · cases h : w.readPassword s.reads <;> simp [promptSecret, State.emit, h]
  · intro b h; rw [promptSecret_ok w what s b h]
  · intro e h; rw [promptSecret_error w what s e h]

/-- Witness for C10: the terminal delivers "pw" for the input line "pw\n";
the prompt "RPC password" returns "pw". -/
theorem promptSecret_spec_witness :
    (promptSecret worldOk (lit "RPC password") State.start).1 = (lit "pw", none) :=
  (promptSecret_spec worldOk (lit "RPC password") State.start).2.2.1 (lit "pw") rfl

/-- C2: `unlock` returns the no-RPC-username error if and only if the RPC
username is the empty string, whatever the duration and whatever the outcomes
of the library calls. -/
theorem unlock_noUser_iff (w : World) (f : Flags) :
    (unlock w f State.start).1 = some errNoUser ↔ f.rpcUser = [] := by
  constructor
  · intro h
    have hr := unlock_run w f
    generalize unlock w f State.start = r at hr h
    cases hr with
    | noUser hu => exact hu
    | negative _ _ => exact absurd h (by decide)
    | insane _ _ => exact absurd h (by decide)
    | notFound e _ _ _ =>
      exact absurd (Option.some.inj h) (errCertNotFound_ne_noUser _)
    | _ => simp [errNoUser] at h
  · intro h
    rw [unlock_noUser w f _ h]

/-- C1: with a non-empty RPC username, `unlock` returns the negative-duration
error when the duration is below 0, the exceeds-one-hour error when it is
above 3600, and for 0 <= d <= 3600 returns neither and goes on to stat the
certificate path; so one of the two duration errors is returned if and only if
the duration lies outside 0..3600, and the two errors are distinct. -/
theorem unlock_duration_checks (w : World) (f : Flags) (hu : f.rpcUser ≠ []) :
    (f.seconds < 0 → unlock w f State.start = (some errNegative, State.start)) ∧
    (3600 < f.seconds → unlock w f State.start = (some errInsane, State.start)) ∧
    (0 ≤ f.seconds ∧ f.seconds ≤ 3600 →
      (unlock w f State.start).1 ≠ some errNegative ∧
      (unlock w f State.start).1 ≠ some errInsane ∧
      ∃ rest, (unlock w f State.start).2.trace = .stat f.certFile :: rest) ∧
    ((unlock w f State.start).1 = some errNegative ↔ f.seconds < 0) ∧
    ((unlock w f State.start).1 = some errInsane ↔ 3600 < f.seconds) ∧
    errNegative ≠ errInsane := by
  have hmid : 0 ≤ f.seconds ∧ f.seconds ≤ 3600 →
      (unlock w f State.start).1 ≠ some errNegative ∧
      (unlock w f State.start).1 ≠ some errInsane ∧
      ∃ rest, (unlock w f State.start).2.trace = .stat f.certFile :: rest := by
    rintro ⟨h0, h1⟩
    have hr := unlock_run w f
    generalize unlock w f State.start = r at hr
    cases hr with
    | noUser h => exact absurd h hu
    | negative _ h => omega
    | insane _ h => omega
    | notFound e _ _ _ =>
      refine ⟨fun h => errCertNotFound_ne_negative _ (Option.some.inj h),
        fun h => errCertNotFound_ne_insane _ (Option.some.inj h), ⟨_, rfl⟩⟩
    | _ =>
      refine ⟨by simp [errNegative], by simp [errInsane], ⟨_, rfl⟩⟩
  refine ⟨fun h => unlock_negative w f _ hu h, fun h => unlock_insane w f _ hu h,
    hmid, ?_, ?_, by decide⟩
  · constructor
    · intro h
      by_contra hn
      by_cases h1 : 3600 < f.seconds
      · rw [unlock_insane w f _ hu h1] at h
        exact absurd h (by decide)
      · exact (hmid ⟨by omega, by omega⟩).1 h
    · intro h; rw [unlock_negative w f _ hu h]
  · constructor
    · intro h
      by_contra hn
      by_cases h0 : f.seconds < 0
      · rw [unlock_negative w f _ hu h0] at h
        exact absurd h (by decide)
      · exact (hmid ⟨by omega, by omega⟩).2.1 h
    · intro h; rw [unlock_insane w f _ hu h]

/-- Witness for C1: user "alice"; duration -1 is rejected with the
negative-duration error and 3601 with the exceeds-one-hour error, while the
bounds 0 and 3600 get neither. -/
theorem unlock_duration_checks_witness :
    unlock worldOk { flagsAlice with seconds := -1 } State.start
      = (some errNegative, State.start) ∧
    unlock worldOk { flagsAlice with seconds := 3601 } State.start
      = (some errInsane, State.start) ∧
    (unlock worldOk { flagsAlice with seconds := 0 } State.start).1
      ≠ some errNegative ∧
    (unlock worldOk { flagsAlice with seconds := 3600 } State.start).1
      ≠ some errInsane :=
  ⟨(unlock_duration_checks worldOk { flagsAlice with seconds := -1 } (by decide)).1
      (by decide),
   (unlock_duration_checks worldOk { flagsAlice with seconds := 3601 } (by decide)).2.1
      (by decide),
   ((unlock_duration_checks worldOk { flagsAlice with seconds := 0 } (by decide)).2.2.1
      (by decide)).1,
   ((unlock_duration_checks worldOk { flagsAlice with seconds := 3600 } (by decide)).2.2.1
      (by decide)).2.1⟩

/-- C3: when the RPC username is empty or the duration is outside 0..3600,
`unlock` performs no action at all (no stat, no file read, no prompt, no
client construction, no unlock call): it returns the state unchanged with the
matching configuration error, and the whole run of `main` consists of one write
of that error's text plus a newline to standard output and exit status 1. -/
theorem config_errors_before_io (w : World) (f : Flags)
    (h : f.rpcUser = [] ∨ f.seconds < 0 ∨ 3600 < f.seconds) :
    (unlock w f State.start).2 = State.start ∧
    (unlock w f State.start).1
      = some (if f.rpcUser = [] then errNoUser
              else if f.seconds < 0 then errNegative else errInsane) ∧
    main w f
      = (1, { trace := [.stdout
                ((if f.rpcUser = [] then errNoUser
                  else if f.seconds < 0 then errNegative else errInsane).Error
                  ++ lit "\n")],
              reads := 0 }) := by
  by_cases hu : f.rpcUser = []
  · simp [main, unlock_noUser w f _ hu, hu, State.emit, State.start]
  by_cases h0 : f.seconds < 0
  · simp [main, unlock_negative w f _ hu h0, hu, h0, State.emit, State.start]
  have h1 : 3600 < f.seconds := by
    rcases h with h | h | h
    · exact absurd h hu
    · exact absurd h h0
    · exact h
  simp [main, unlock_insane w f _ hu h1, hu, h0, State.emit, State.start]

/-- Witness for C3: scenario B (user "") and scenario C (duration 3601). -/
theorem config_errors_before_io_witness :
    main worldOk { flagsAlice with rpcUser := [] }
        = (1, { trace := [.stdout (lit "No RPC username (use -u to set)\n")],
                reads := 0 }) ∧
    main worldOk { flagsAlice with seconds := 3601 }
        = (1, { trace :=
                  [.stdout (lit "Insane seconds value exceeds 1hr (use -s to set)\n")],
                reads := 0 }) :=
  ⟨(config_errors_before_io worldOk { flagsAlice with rpcUser := [] }
      (Or.inl rfl)).2.2,
   (config_errors_before_io worldOk { flagsAlice with seconds := 3601 }
      (Or.inr (Or.inr (by decide)))).2.2⟩

/-- C4: `fileExists(p)` returns (true, nil) when the stat succeeds, (false, nil)
when it fails with a not-exist error, and (false, e) when it fails with any
other error e. For flags that pass the username and duration tests: a missing
certificate makes `unlock` return the "not found" error, whose text contains
the configured path, after the stat alone (no prompt); another stat error is
returned itself; and after a successful stat the next action is the
"RPC password" prompt. -/
theorem fileExists_spec (w : World) (f : Flags) :
    (∀ p s, w.stat p = none →
      fileExists w p s = ((true, none), s.emit (.stat p))) ∧
    (∀ p s e, w.stat p = some e → IsNotExist (.lib e) = true →
      fileExists w p s = ((false, none), s.emit (.stat p))) ∧
    (∀ p s e, w.stat p = some e → IsNotExist (.lib e) = false →
      fileExists w p s = ((false, some (.lib e)), s.emit (.stat p))) ∧
    (f.rpcUser ≠ [] ∧ 0 ≤ f.seconds ∧ f.seconds ≤ 3600 →
      (∀ e, w.stat f.certFile = some e → IsNotExist (.lib e) = true →
        unlock w f State.start
          = (some (errCertNotFound f.certFile),
              { trace := [.stat f.certFile], reads := 0 }) ∧
        (errCertNotFound f.certFile).Error
          = lit "TLS certificate file `" ++ f.certFile
              ++ lit "` not found (use -cert to set)") ∧
      (∀ e, w.stat f.certFile = some e → IsNotExist (.lib e) = false →
        unlock w f State.start
          = (some (.lib e), { trace := [.stat f.certFile], reads := 0 })) ∧
      (w.stat f.certFile = none →
        ∃ rest, (unlock w f State.start).2.trace
          = .stat f.certFile :: .stdout (lit "RPC password: ") :: .readPassword
              :: rest)) := by
  refine ⟨?_, ?_, ?_, ?_⟩
  · intro p s h; simp [fileExists, h]
  · intro p s e h hn; simp [fileExists, h, hn]
  · intro p s e h hn; simp [fileExists, h, hn]
  · intro hf
    refine ⟨?_, ?_, ?_⟩
    · intro e hs hn
      exact ⟨unlock_notFound w f hf e hs hn, rfl⟩
    · intro e hs hn
      exact unlock_statError w f hf e hs hn
    · intro hs
      have hr := unlock_run w f
      generalize unlock w f State.start = r at hr
      cases hr with
      | noUser h => exact absurd h hf.1
      | negative _ h => have := hf.2.1; omega
      | insane _ h => have := hf.2.2; omega
      | statError e _ h _ => rw [hs] at h; exact absurd h (by simp)
      | notFound e _ h _ => rw [hs] at h; exact absurd h (by simp)
      | _ =>
        simp only [traceToCall, traceToPass, traceToNew, traceToRead, promptEvents,
          rpcPassword_label, List.cons_append, List.nil_append]
        exact ⟨_, rfl⟩

/-- Witness for C4: a missing certificate file at "rpc.cert". -/
theorem fileExists_spec_witness :
    unlock { worldOk with stat := fun _ => some errMissing } flagsAlice State.start
      = (some (errCertNotFound (lit "rpc.cert")),
          { trace := [.stat (lit "rpc.cert")], reads := 0 }) :=
  ((fileExists_spec { worldOk with stat := fun _ => some errMissing } flagsAlice).2.2.2
    (by decide)).1 errMissing rfl rfl |>.1

/-- C5: in a run where validation passes and every step succeeds, the client
is constructed once, with Host the configured address, User the configured
username, Pass the string returned by the first prompt ("RPC password"),
Certificates the bytes read from the certificate path and HTTP POST mode on;
`WalletPassphrase` is called once, on that client, with the string returned by
the second prompt ("Wallet passphrase") and the configured duration; and
exactly two terminal reads are made. -/
theorem unlock_success_trace (w : World) (f : Flags)
    (rpcPass : GoString) (certs : List UInt8) (pass : GoString)
    (hu : f.rpcUser ≠ []) (h0 : 0 ≤ f.seconds) (h1 : f.seconds ≤ 3600)
    (hs : w.stat f.certFile = none)
    (hp : w.readPassword 0 = .ok rpcPass)
    (hr : w.readFile f.certFile = .ok certs)
    (hc : w.newClient
            { Host := f.host, User := f.rpcUser, Pass := rpcPass,
              Certificates := certs, HTTPPostMode := true } = none)
    (hq : w.readPassword 1 = .ok pass)
    (hw : w.walletPassphrase
            { config := { Host := f.host, User := f.rpcUser, Pass := rpcPass,
                          Certificates := certs, HTTPPostMode := true } }
            pass f.seconds = none) :
    unlock w f State.start
      = (none,
          { trace :=
              [ .stat f.certFile,
                .stdout (lit "RPC password: "), .readPassword, .stdout (lit "\n"),
                .readFile f.certFile,
                .newClient { Host := f.host, User := f.rpcUser, Pass := rpcPass,
                             Certificates := certs, HTTPPostMode := true },
                .stdout (lit "Wallet passphrase: "), .readPassword, .stdout (lit "\n"),
                .walletPassphrase
                  { config := { Host := f.host, User := f.rpcUser, Pass := rpcPass,
                                Certificates := certs, HTTPPostMode := true } }
                  pass f.seconds,
                .stdout (successLine f.seconds) ],
            reads := 2 }) ∧
    (unlock w f State.start).2.trace.count .readPassword = 2 ∧
    (unlock w f State.start).2.trace.countP Event.isNewClient = 1 ∧
    (unlock w f State.start).2.trace.countP Event.isWalletPassphrase = 1 := by
  have key := unlock_success w f ⟨hu, h0, h1⟩ rpcPass certs pass hs hp hr hc hq hw
  have key2 : unlock w f State.start
      = (none,
          { trace :=
              [ .stat f.certFile,
                .stdout (lit "RPC password: "), .readPassword, .stdout (lit "\n"),
                .readFile f.certFile,
                .newClient { Host := f.host, User := f.rpcUser, Pass := rpcPass,
                             Certificates := certs, HTTPPostMode := true },
                .stdout (lit "Wallet passphrase: "), .readPassword, .stdout (lit "\n"),
                .walletPassphrase
                  { config := { Host := f.host, User := f.rpcUser, Pass := rpcPass,
                                Certificates := certs, HTTPPostMode := true } }
                  pass f.seconds,
                .stdout (successLine f.seconds) ],
            reads := 2 }) := by
    rw [key]
    simp only [traceToCall, traceToPass, traceToNew, traceToRead, promptEvents,
      connConfigOf, rpcPassword_label, walletPassphrase_label, List.cons_append,
      List.nil_append]
  refine ⟨key2, ?_, ?_, ?_⟩
  · rw [key2]; simp [List.count_cons]
  · rw [key2]; simp [List.countP_cons, Event.isNewClient]
  · rw [key2]; simp [List.countP_cons, Event.isWalletPassphrase]

/-- Witness for C5: user "alice", 60 seconds, first secret "pw", second secret
"hunter2", every call succeeding. -/
theorem unlock_success_trace_witness :
    unlock worldOk flagsAlice State.start
      = (none,
          { trace :=
              [ .stat (lit "rpc.cert"),
                .stdout (lit "RPC password: "), .readPassword, .stdout (lit "\n"),
                .readFile (lit "rpc.cert"),
                .newClient { Host := lit "localhost:8332", User := lit "alice",
                             Pass := lit "pw", Certificates := lit "PEM",
                             HTTPPostMode := true },
                .stdout (lit "Wallet passphrase: "), .readPassword, .stdout (lit "\n"),
                .walletPassphrase
                  { config := { Host := lit "localhost:8332", User := lit "alice",
                                Pass := lit "pw", Certificates := lit "PEM",
                                HTTPPostMode := true } }
                  (lit "hunter2") 60,
                .stdout (lit "Wallet unlocked for 60 seconds.\n") ],
            reads := 2 }) :=
  (unlock_success_trace worldOk flagsAlice (lit "pw") (lit "PEM") (lit "hunter2")
    (by decide) (by decide) (by decide) rfl rfl rfl rfl rfl rfl).1

/-- C6: after validation and a successful stat, whichever of the five fallible
steps (RPC password prompt, certificate read, client construction, wallet
passphrase prompt, `WalletPassphrase` call) is the first to fail with error e:
`unlock` returns exactly e, its trace stops at that step, and `main` writes the
text of e plus a newline and exits with status 1; and in no failing run does
`unlock` write the success line. -/
theorem first_error_terminal (w : World) (f : Flags)
    (hu : f.rpcUser ≠ []) (h0 : 0 ≤ f.seconds) (h1 : f.seconds ≤ 3600)
    (hs : w.stat f.certFile = none) :
    (∀ e, w.readPassword 0 = .error e →
      unlock w f State.start
        = (some (.lib e),
            { trace := [.stat f.certFile, .stdout (lit "RPC password: "),
                .readPassword, .stdout (lit "\n")],
              reads := 1 }) ∧
      main w f
        = (1, { trace := [.stat f.certFile, .stdout (lit "RPC password: "),
                  .readPassword, .stdout (lit "\n"), .stdout (e.msg ++ lit "\n")],
                reads := 1 })) ∧
    (∀ rpcPass e, w.readPassword 0 = .ok rpcPass →
      w.readFile f.certFile = .error e →
      unlock w f State.start
        = (some (.lib e),
            { trace := [.stat f.certFile, .stdout (lit "RPC password: "),
                .readPassword, .stdout (lit "\n"), .readFile f.certFile],
              reads := 1 }) ∧
      main w f
        = (1, { trace := [.stat f.certFile, .stdout (lit "RPC password: "),
                  .readPassword, .stdout (lit "\n"), .readFile f.certFile,
                  .stdout (e.msg ++ lit "\n")],
                reads := 1 })) ∧
    (∀ rpcPass certs e, w.readPassword 0 = .ok rpcPass →
      w.readFile f.certFile = .ok certs →
      w.newClient { Host := f.host, User := f.rpcUser, Pass := rpcPass,
                    Certificates := certs, HTTPPostMode := true } = some e →
      unlock w f State.start
        = (some (.lib e),
            { trace := [.stat f.certFile, .stdout (lit "RPC password: "),
                .readPassword, .stdout (lit "\n"), .readFile f.certFile,
                .newClient { Host := f.host, User := f.rpcUser, Pass := rpcPass,
                             Certificates := certs, HTTPPostMode := true }],
              reads := 1 }) ∧
      main w f
        = (1, { trace := [.stat f.certFile, .stdout (lit "RPC password: "),
                  .readPassword, .stdout (lit "\n"), .readFile f.certFile,
                  .newClient { Host := f.host, User := f.rpcUser, Pass := rpcPass,
                               Certificates := certs, HTTPPostMode := true },
                  .stdout (e.msg ++ lit "\n")],
                reads := 1 })) ∧
    (∀ rpcPass certs e, w.readPassword 0 = .ok rpcPass →
      w.readFile f.certFile = .ok certs →
      w.newClient { Host := f.host, User := f.rpcUser, Pass := rpcPass,
                    Certificates := certs, HTTPPostMode := true } = none →
      w.readPassword 1 = .error e →
      unlock w f State.start
        = (some (.lib e),
            { trace := [.stat f.certFile, .stdout (lit "RPC password: "),
                .readPassword, .stdout (lit "\n"), .readFile f.certFile,
                .newClient { Host := f.host, User := f.rpcUser, Pass := rpcPass,
                             Certificates := certs, HTTPPostMode := true },
                .stdout (lit "Wallet passphrase: "), .readPassword,
                .stdout (lit "\n")],
              reads := 2 }) ∧
      main w f
        = (1, { trace := [.stat f.certFile, .stdout (lit "RPC password: "),
                  .readPassword, .stdout (lit "\n"), .readFile f.certFile,
                  .newClient { Host := f.host, User := f.rpcUser, Pass := rpcPass,
                               Certificates := certs, HTTPPostMode := true },
                  .stdout (lit "Wallet passphrase: "), .readPassword,
                  .stdout (lit "\n"), .stdout (e.msg ++ lit "\n")],
                reads := 2 })) ∧
    (∀ rpcPass certs pass e, w.readPassword 0 = .ok rpcPass →
      w.readFile f.certFile = .ok certs →
      w.newClient { Host := f.host, User := f.rpcUser, Pass := rpcPass,
                    Certificates := certs, HTTPPostMode := true } = none →
      w.readPassword 1 = .ok pass →
      w.walletPassphrase
        { config := { Host := f.host, User := f.rpcUser, Pass := rpcPass,
                      Certificates := certs, HTTPPostMode := true } }
        pass f.seconds = some e →
      unlock w f State.start
        = (some (.lib e),
            { trace := [.stat f.certFile, .stdout (lit "RPC password: "),
                .readPassword, .stdout (lit "\n"), .readFile f.certFile,
                .newClient { Host := f.host, User := f.rpcUser, Pass := rpcPass,
                             Certificates := certs, HTTPPostMode := true },
                .stdout (lit "Wallet passphrase: "), .readPassword,
                .stdout (lit "\n"),
                .walletPassphrase
                  { config := { Host := f.host, User := f.rpcUser, Pass := rpcPass,
                                Certificates := certs, HTTPPostMode := true } }
                  pass f.seconds],
              reads := 2 }) ∧
      main w f
        = (1, { trace := [.stat f.certFile, .stdout (lit "RPC password: "),
                  .readPassword, .stdout (lit "\n"), .readFile f.certFile,
                  .newClient { Host := f.host, User := f.rpcUser, Pass := rpcPass,
                               Certificates := certs, HTTPPostMode := true },
                  .stdout (lit "Wallet passphrase: "), .readPassword,
                  .stdout (lit "\n"),
                  .walletPassphrase
                    { config := { Host := f.host, User := f.rpcUser, Pass := rpcPass,
                                  Certificates := certs, HTTPPostMode := true } }
                    pass f.seconds,
                  .stdout (e.msg ++ lit "\n")],
                reads := 2 })) ∧
    (∀ e, (unlock w f State.start).1 = some e →
      Event.stdout (successLine f.seconds) ∉ (unlock w f State.start).2.trace) := by
  have hf : FlagsOk f := ⟨hu, h0, h1⟩
  refine ⟨?_, ?_, ?_, ?_, ?_, fun e h => successLine_not_mem_of_error w f e h⟩
  · intro e hp
    have key := unlock_rpcPassError w f hf e hs hp
    refine ⟨?_, ?_⟩
    · rw [key]; simp only [promptEvents, rpcPassword_label]
    · rw [main_of_error w f _ _ key]
      simp [State.emit, promptEvents, rpcPassword_label, GoError.Error]
  · intro rpcPass e hp hr
    have key := unlock_readError w f hf rpcPass e hs hp hr
    refine ⟨?_, ?_⟩
    · rw [key]
      simp only [traceToRead, promptEvents, rpcPassword_label, List.cons_append,
        List.nil_append]
    · rw [main_of_error w f _ _ key]
      simp [State.emit, traceToRead, promptEvents, rpcPassword_label, GoError.Error]
  · intro rpcPass certs e hp hr hc
    have key := unlock_newError w f hf rpcPass certs e hs hp hr hc
    refine ⟨?_, ?_⟩
    · rw [key]
      simp only [traceToNew, traceToRead, promptEvents, connConfigOf,
        rpcPassword_label, List.cons_append, List.nil_append]
    · rw [main_of_error w f _ _ key]
      simp [State.emit, traceToNew, traceToRead, promptEvents, connConfigOf,
        rpcPassword_label, GoError.Error]
  · intro rpcPass certs e hp hr hc hq
    have key := unlock_passError w f hf rpcPass certs e hs hp hr hc hq
    refine ⟨?_, ?_⟩
    · rw [key]
      simp only [traceToPass, traceToNew, traceToRead, promptEvents, connConfigOf,
        rpcPassword_label, walletPassphrase_label, List.cons_append, List.nil_append]
    · rw [main_of_error w f _ _ key]
      simp [State.emit, traceToPass, traceToNew, traceToRead, promptEvents,
        connConfigOf, rpcPassword_label, walletPassphrase_label, GoError.Error]
  · intro rpcPass certs pass e hp hr hc hq hw
    have key := unlock_callError w f hf rpcPass certs pass e hs hp hr hc hq hw
    refine ⟨?_, ?_⟩
    · rw [key]
      simp only [traceToCall, traceToPass, traceToNew, traceToRead, promptEvents,
        connConfigOf, rpcPassword_label, walletPassphrase_label, List.cons_append,
        List.nil_append]
    · rw [main_of_error w f _ _ key]
      simp [State.emit, traceToCall, traceToPass, traceToNew, traceToRead,
        promptEvents, connConfigOf, rpcPassword_label, walletPassphrase_label,
        GoError.Error]

/-- A world in which the server rejects the wallet passphrase (scenario D). -/
def worldReject : World :=
  { worldOk with
    walletPassphrase := fun _ _ _ =>
      some { msg := lit "-14: invalid passphrase for master private key",
             notExist := false } }

/-- Witness for C6: scenario D, the server rejects the wallet passphrase; the
line printed by `main` is the server's message. -/
theorem first_error_terminal_witness :
    (unlock worldReject flagsAlice State.start).1
        = some (.lib { msg := lit "-14: invalid passphrase for master private key",
                       notExist := false }) ∧
    (main worldReject flagsAlice).1 = 1 ∧
    (main worldReject flagsAlice).2.trace.getLast?
        = some (.stdout (lit "-14: invalid passphrase for master private key\n")) :=
  have h := (first_error_terminal worldReject flagsAlice (by decide) (by decide)
    (by decide) rfl).2.2.2.2.1 (lit "pw") (lit "PEM") (lit "hunter2")
    { msg := lit "-14: invalid passphrase for master private key", notExist := false }
    rfl rfl rfl rfl rfl
  ⟨by rw [h.1], by rw [h.2], by rw [h.2]; decide⟩

/-- C7: in a run where validation passes and every step succeeds, `unlock`
returns no error, the last action of its trace is the write of
"Wallet unlocked for <seconds> seconds." plus a newline, with <seconds> the
configured duration in decimal, and `main` adds nothing and ends with exit
status 0. In every run, `unlock` writes that line only if it returns no error,
and the exit status is 0 exactly when `unlock` returns no error. -/
theorem success_report (w : World) (f : Flags) :
    (∀ rpcPass certs pass,
      f.rpcUser ≠ [] → 0 ≤ f.seconds → f.seconds ≤ 3600 →
      w.stat f.certFile = none →
      w.readPassword 0 = .ok rpcPass →
      w.readFile f.certFile = .ok certs →
      w.newClient { Host := f.host, User := f.rpcUser, Pass := rpcPass,
                    Certificates := certs, HTTPPostMode := true } = none →
      w.readPassword 1 = .ok pass →
      w.walletPassphrase
        { config := { Host := f.host, User := f.rpcUser, Pass := rpcPass,
                      Certificates := certs, HTTPPostMode := true } }
        pass f.seconds = none →
      (unlock w f State.start).1 = none ∧
      (unlock w f State.start).2.trace.getLast?
        = some (.stdout (lit "Wallet unlocked for " ++ lit (toString f.seconds)
            ++ lit " seconds.\n")) ∧
      main w f = (0, (unlock w f State.start).2)) ∧
    (Event.stdout (lit "Wallet unlocked for " ++ lit (toString f.seconds)
        ++ lit " seconds.\n") ∈ (unlock w f State.start).2.trace →
      (unlock w f State.start).1 = none) ∧
    ((main w f).1 = 0 ↔ (unlock w f State.start).1 = none) := by
  refine ⟨?_, ?_, ?_⟩
  · intro rpcPass certs pass hu h0 h1 hs hp hr hc hq hw
    have key := unlock_success w f ⟨hu, h0, h1⟩ rpcPass certs pass hs hp hr hc hq hw
    refine ⟨by rw [key], ?_, ?_⟩
    · rw [key]; simp [successLine, fmtD]
    · rw [main_of_ok w f _ key, key]
  · intro hmem
    cases h : (unlock w f State.start).1 with
    | none => rfl
    | some e => exact absurd hmem (successLine_not_mem_of_error w f e h)
  · cases h : unlock w f State.start with
    | mk r s =>
      cases r with
      | none => simp [main_of_ok w f s h]
      | some e => simp [main_of_error w f e s h]

/-- Witness for C7: scenario A, user "alice" and duration 60 with every step
succeeding ends with "Wallet unlocked for 60 seconds." and exit status 0. -/
theorem success_report_witness :
    (unlock worldOk flagsAlice State.start).2.trace.getLast?
        = some (.stdout (lit "Wallet unlocked for 60 seconds.\n")) ∧
    main worldOk flagsAlice = (0, (unlock worldOk flagsAlice State.start).2) :=
  ((success_report worldOk flagsAlice).1 (lit "pw") (lit "PEM") (lit "hunter2")
    (by decide) (by decide) (by decide) rfl rfl rfl rfl rfl rfl).2

/-- A world in which the certificate file exists but cannot be read. -/
def worldUnreadable : World :=
  { worldOk with readFile := fun _ => .error errDenied }

/-- C8, as stated, fails: with a certificate that exists but cannot be read,
`unlock` returns the read error, yet standard output holds the prompt text
"RPC password: " and a newline before the error line, so it is not just the
error line. -/
theorem failure_single_line_counterexample :
    (unlock worldUnreadable flagsAlice State.start).1 = some (.lib errDenied) ∧
    stdoutOf (main worldUnreadable flagsAlice).2.trace
      = lit "RPC password: \npermission denied\n" ∧
    stdoutOf (main worldUnreadable flagsAlice).2.trace
      ≠ (GoError.lib errDenied).Error ++ lit "\n" := by
  decide

/-- In every failing run, standard output is the prompt text of the terminal
reads made, followed by the error line. -/
theorem failing_run_stdout (w : World) (f : Flags) (e : GoError)
    (h : (unlock w f State.start).1 = some e) :
    (main w f).1 = 1 ∧
    (((unlock w f State.start).2.trace.count .readPassword = 0 ∧
        stdoutOf (main w f).2.trace = e.Error ++ lit "\n") ∨
      ((unlock w f State.start).2.trace.count .readPassword = 1 ∧
        stdoutOf (main w f).2.trace
          = lit "RPC password: \n" ++ (e.Error ++ lit "\n")) ∨
      ((unlock w f State.start).2.trace.count .readPassword = 2 ∧
        stdoutOf (main w f).2.trace
          = lit "RPC password: \nWallet passphrase: \n" ++ (e.Error ++ lit "\n"))) ∧
    (f.rpcUser = [] ∨ f.seconds < 0 ∨ 3600 < f.seconds ∨ w.stat f.certFile ≠ none →
      stdoutOf (main w f).2.trace = e.Error ++ lit "\n") := by
  have hr := unlock_run w f
  cases hu : unlock w f State.start with
  | mk r s =>
    rw [hu] at hr h
    simp only at h
    subst h
    rw [main_of_error w f e s hu]
    simp only [State.emit, stdoutOf_append]
    have hone : stdoutOf [Event.stdout (e.Error ++ lit "\n")] = e.Error ++ lit "\n" := by
      simp [stdoutOf]
    rw [hone]
    refine ⟨trivial, ?_⟩
    cases hr with
    | noUser _ => simp [State.start, stdoutOf]
    | negative _ _ => simp [State.start, stdoutOf]
    | insane _ _ => simp [State.start, stdoutOf]
    | statError _ _ _ _ => simp [stdoutOf, List.count_cons]
    | notFound _ _ _ _ => simp [stdoutOf, List.count_cons]
    | rpcPassError _ hf hs _ =>
      have hne : ¬ (f.rpcUser = [] ∨ f.seconds < 0 ∨ 3600 < f.seconds ∨
          w.stat f.certFile ≠ none) := by
        obtain ⟨a, b, c⟩ := hf
        rintro (h | h | h | h)
        · exact a h
        · omega
        · omega
        · exact h hs
      refine ⟨Or.inr (Or.inl ⟨?_, ?_⟩), fun h => absurd h hne⟩
      · simp [List.count_cons, count_promptEvents]
      · rw [stdoutOf_rpcPrompt]
    | readError _ _ hf hs _ _ =>
      have hne : ¬ (f.rpcUser = [] ∨ f.seconds < 0 ∨ 3600 < f.seconds ∨
          w.stat f.certFile ≠ none) := by
        obtain ⟨a, b, c⟩ := hf
        rintro (h | h | h | h)
        · exact a h
        · omega
        · omega
        · exact h hs
      refine ⟨Or.inr (Or.inl ⟨count_traceToRead f, ?_⟩), fun h => absurd h hne⟩
      rw [stdoutOf_traceToRead]
    | newError _ _ _ hf hs _ _ _ =>
      have hne : ¬ (f.rpcUser = [] ∨ f.seconds < 0 ∨ 3600 < f.seconds ∨
          w.stat f.certFile ≠ none) := by
        obtain ⟨a, b, c⟩ := hf
        rintro (h | h | h | h)
        · exact a h
        · omega
        · omega
        · exact h hs
      refine ⟨Or.inr (Or.inl ⟨count_traceToNew f _ _, ?_⟩), fun h => absurd h hne⟩
      rw [stdoutOf_traceToNew]
    | passError _ _ _ hf hs _ _ _ _ =>
      have hne : ¬ (f.rpcUser = [] ∨ f.seconds < 0 ∨ 3600 < f.seconds ∨
          w.stat f.certFile ≠ none) := by
        obtain ⟨a, b, c⟩ := hf
        rintro (h | h | h | h)
        · exact a h
        · omega
        · omega
        · exact h hs
      refine ⟨Or.inr (Or.inr ⟨count_traceToPass f _ _, ?_⟩), fun h => absurd h hne⟩
      rw [stdoutOf_traceToPass]
    | callError _ _ _ _ hf hs _ _ _ _ _ =>
      have hne : ¬ (f.rpcUser = [] ∨ f.seconds < 0 ∨ 3600 < f.seconds ∨
          w.stat f.certFile ≠ none) := by
        obtain ⟨a, b, c⟩ := hf
        rintro (h | h | h | h)
        · exact a h
        · omega
        · omega
        · exact h hs
      refine ⟨Or.inr (Or.inr ⟨count_traceToCall f _ _ _, ?_⟩), fun h => absurd h hne⟩
      rw [stdoutOf_traceToCall]

/-- Standard output of `main` when `unlock` fails: what `unlock` wrote, then
the error line. -/
theorem stdoutOf_main_of_error (w : World) (f : Flags) (e : GoError) (s : State)
    (h : unlock w f State.start = (some e, s)) :
    stdoutOf (main w f).2.trace = stdoutOf s.trace ++ (e.Error ++ lit "\n") := by
  rw [main_of_error w f e s h]
  simp [State.emit, stdoutOf_append, stdoutOf]

/-- C8 (amended): in every run in which `unlock` returns an error e, `main`
exits with status 1 and standard output ends with the text of e plus a
newline; before that line it holds exactly the prompt text of each terminal
read made, nothing else. Step by step: the error line is the whole output when
the username is empty, the duration is outside 0..3600, the certificate stat
fails or the certificate is not found; it is preceded by "RPC password: " plus
a newline when the first prompt, the certificate read or the client
construction fails; and by that followed by "Wallet passphrase: " plus a
newline when the second prompt or the unlock call fails. -/
theorem failure_output (w : World) (f : Flags) :
    (∀ e, (unlock w f State.start).1 = some e →
      (main w f).1 = 1 ∧
      (((unlock w f State.start).2.trace.count .readPassword = 0 ∧
          stdoutOf (main w f).2.trace = e.Error ++ lit "\n") ∨
        ((unlock w f State.start).2.trace.count .readPassword = 1 ∧
          stdoutOf (main w f).2.trace
            = lit "RPC password: \n" ++ (e.Error ++ lit "\n")) ∨
        ((unlock w f State.start).2.trace.count .readPassword = 2 ∧
          stdoutOf (main w f).2.trace
            = lit "RPC password: \nWallet passphrase: \n"
                ++ (e.Error ++ lit "\n")))) ∧
    (f.rpcUser = [] ∨ f.seconds < 0 ∨ 3600 < f.seconds →
      stdoutOf (main w f).2.trace
        = (if f.rpcUser = [] then errNoUser
           else if f.seconds < 0 then errNegative else errInsane).Error
            ++ lit "\n") ∧
    (f.rpcUser ≠ [] ∧ 0 ≤ f.seconds ∧ f.seconds ≤ 3600 →
      (∀ e, w.stat f.certFile = some e → IsNotExist (.lib e) = false →
        (unlock w f State.start).1 = some (.lib e) ∧
        stdoutOf (main w f).2.trace = e.msg ++ lit "\n") ∧
      (∀ e, w.stat f.certFile = some e → IsNotExist (.lib e) = true →
        (unlock w f State.start).1 = some (errCertNotFound f.certFile) ∧
        stdoutOf (main w f).2.trace
          = lit "TLS certificate file `" ++ f.certFile
              ++ lit "` not found (use -cert to set)" ++ lit "\n") ∧
      (w.stat f.certFile = none →
        (∀ e, w.readPassword 0 = .error e →
          (unlock w f State.start).1 = some (.lib e) ∧
          stdoutOf (main w f).2.trace
            = lit "RPC password: \n" ++ (e.msg ++ lit "\n")) ∧
        (∀ rpcPass e, w.readPassword 0 = .ok rpcPass →
          w.readFile f.certFile = .error e →
          (unlock w f State.start).1 = some (.lib e) ∧
          stdoutOf (main w f).2.trace
            = lit "RPC password: \n" ++ (e.msg ++ lit "\n")) ∧
        (∀ rpcPass certs e, w.readPassword 0 = .ok rpcPass →
          w.readFile f.certFile = .ok certs →
          w.newClient { Host := f.host, User := f.rpcUser, Pass := rpcPass,
                        Certificates := certs, HTTPPostMode := true } = some e →
          (unlock w f State.start).1 = some (.lib e) ∧
          stdoutOf (main w f).2.trace
            = lit "RPC password: \n" ++ (e.msg ++ lit "\n")) ∧
        (∀ rpcPass certs e, w.readPassword 0 = .ok rpcPass →
          w.readFile f.certFile = .ok certs →
          w.newClient { Host := f.host, User := f.rpcUser, Pass := rpcPass,
                        Certificates := certs, HTTPPostMode := true } = none →
          w.readPassword 1 = .error e →
          (unlock w f State.start).1 = some (.lib e) ∧
          stdoutOf (main w f).2.trace
            = lit "RPC password: \nWallet passphrase: \n"
                ++ (e.msg ++ lit "\n")) ∧
        (∀ rpcPass certs pass e, w.readPassword 0 = .ok rpcPass →
          w.readFile f.certFile = .ok certs →
          w.newClient { Host := f.host, User := f.rpcUser, Pass := rpcPass,
                        Certificates := certs, HTTPPostMode := true } = none →
          w.readPassword 1 = .ok pass →
          w.walletPassphrase
            { config := { Host := f.host, User := f.rpcUser, Pass := rpcPass,
                          Certificates := certs, HTTPPostMode := true } }
            pass f.seconds = some e →
          (unlock w f State.start).1 = some (.lib e) ∧
          stdoutOf (main w f).2.trace
            = lit "RPC password: \nWallet passphrase: \n"
                ++ (e.msg ++ lit "\n")))) := by
  refine ⟨fun e h => ⟨(failing_run_stdout w f e h).1, (failing_run_stdout w f e h).2.1⟩,
    ?_, ?_⟩
  · intro h
    by_cases hu : f.rpcUser = []
    · rw [stdoutOf_main_of_error w f _ _ (unlock_noUser w f _ hu)]
      simp [hu, State.start, stdoutOf]
    by_cases h0 : f.seconds < 0
    · rw [stdoutOf_main_of_error w f _ _ (unlock_negative w f _ hu h0)]
      simp [hu, h0, State.start, stdoutOf]
    have h1 : 3600 < f.seconds := by
      rcases h with h | h | h
      · exact absurd h hu
      · exact absurd h h0
      · exact h
    rw [stdoutOf_main_of_error w f _ _ (unlock_insane w f _ hu h1)]
    simp [hu, h0, State.start, stdoutOf]
  · intro hf
    refine ⟨?_, ?_, ?_⟩
    · intro e hs hn
      have key := unlock_statError w f hf e hs hn
      refine ⟨by rw [key], ?_⟩
      rw [stdoutOf_main_of_error w f _ _ key]
      simp [stdoutOf, GoError.Error]
    · intro e hs hn
      have key := unlock_notFound w f hf e hs hn
      refine ⟨by rw [key], ?_⟩
      rw [stdoutOf_main_of_error w f _ _ key]
      simp [stdoutOf, GoError.Error, errCertNotFound]
    · intro hs
      refine ⟨?_, ?_, ?_, ?_, ?_⟩
      · intro e hp
        have key := unlock_rpcPassError w f hf e hs hp
        refine ⟨by rw [key], ?_⟩
        rw [stdoutOf_main_of_error w f _ _ key]
        simp only [stdoutOf_rpcPrompt, GoError.Error]
      · intro rpcPass e hp hr
        have key := unlock_readError w f hf rpcPass e hs hp hr
        refine ⟨by rw [key], ?_⟩
        rw [stdoutOf_main_of_error w f _ _ key]
        simp only [stdoutOf_traceToRead, GoError.Error]
      · intro rpcPass certs e hp hr hc
        have key := unlock_newError w f hf rpcPass certs e hs hp hr hc
        refine ⟨by rw [key], ?_⟩
        rw [stdoutOf_main_of_error w f _ _ key]
        simp only [stdoutOf_traceToNew, GoError.Error]
      · intro rpcPass certs e hp hr hc hq
        have key := unlock_passError w f hf rpcPass certs e hs hp hr hc hq
        refine ⟨by rw [key], ?_⟩
        rw [stdoutOf_main_of_error w f _ _ key]
        simp only [stdoutOf_traceToPass, GoError.Error]
      · intro rpcPass certs pass e hp hr hc hq hw
        have key := unlock_callError w f hf rpcPass certs pass e hs hp hr hc hq hw
        refine ⟨by rw [key], ?_⟩
        rw [stdoutOf_main_of_error w f _ _ key]
        simp only [stdoutOf_traceToCall, GoError.Error]

/-- Witness for C8 (amended): a certificate that exists but cannot be read
(one prompt before the error line), and scenario D, the server rejecting the
wallet passphrase (two prompts before the error line). -/
theorem failure_output_witness :
    stdoutOf (main worldUnreadable flagsAlice).2.trace
        = lit "RPC password: \n" ++ (lit "permission denied" ++ lit "\n") ∧
    stdoutOf (main worldReject flagsAlice).2.trace
        = lit "RPC password: \nWallet passphrase: \n"
            ++ (lit "-14: invalid passphrase for master private key" ++ lit "\n") :=
  ⟨((((failure_output worldUnreadable flagsAlice).2.2 (by decide)).2.2 rfl).2.1
      (lit "pw") errDenied rfl rfl).2,
   ((((failure_output worldReject flagsAlice).2.2 (by decide)).2.2 rfl).2.2.2.2
      (lit "pw") (lit "PEM") (lit "hunter2")
      { msg := lit "-14: invalid passphrase for master private key", notExist := false }
      rfl rfl rfl rfl rfl).2⟩

/-- C9, as stated, fails: in the all-succeeding run the first terminal read
(the RPC password prompt) comes before the certificate read, and with a
certificate that exists but cannot be read the run fails at the certificate
read after a secret has been prompted. -/
theorem step_order_counterexample :
    (unlock worldOk flagsAlice State.start).2.trace.indexOf .readPassword
      < (unlock worldOk flagsAlice State.start).2.trace.indexOf
          (.readFile flagsAlice.certFile) ∧
    worldUnreadable.stat flagsAlice.certFile = none ∧
    worldUnreadable.readFile flagsAlice.certFile = .error errDenied ∧
    (unlock worldUnreadable flagsAlice State.start).1 = some (.lib errDenied) ∧
    Event.readPassword ∈ (unlock worldUnreadable flagsAlice State.start).2.trace :=
  ⟨by decide, by decide, rfl, by decide, by decide⟩

/-- C9 (amended): the steps of a run occur in the order stat of the
certificate path, RPC password prompt, certificate read, client construction,
wallet passphrase prompt, unlock call, success line: the trace of every run of
`unlock` is an initial segment of that sequence. In particular, for a
certificate path that exists but cannot be read, the RPC password is prompted
first, and when that prompt succeeds the run fails at the certificate read
with one secret prompted and neither the client construction nor the wallet
passphrase prompt reached. -/
theorem step_order (w : World) (f : Flags) :
    (∃ rpcPass certs pass rest,
      (unlock w f State.start).2.trace ++ rest
        = [ .stat f.certFile,
            .stdout (lit "RPC password: "), .readPassword, .stdout (lit "\n"),
            .readFile f.certFile,
            .newClient { Host := f.host, User := f.rpcUser, Pass := rpcPass,
                         Certificates := certs, HTTPPostMode := true },
            .stdout (lit "Wallet passphrase: "), .readPassword, .stdout (lit "\n"),
            .walletPassphrase
              { config := { Host := f.host, User := f.rpcUser, Pass := rpcPass,
                            Certificates := certs, HTTPPostMode := true } }
              pass f.seconds,
            .stdout (successLine f.seconds) ]) ∧
    (f.rpcUser ≠ [] ∧ 0 ≤ f.seconds ∧ f.seconds ≤ 3600 →
      w.stat f.certFile = none →
      ∀ e, w.readFile f.certFile = .error e →
      ∀ rpcPass, w.readPassword 0 = .ok rpcPass →
      unlock w f State.start
        = (some (.lib e),
            { trace := [.stat f.certFile, .stdout (lit "RPC password: "),
                .readPassword, .stdout (lit "\n"), .readFile f.certFile],
              reads := 1 })) := by
  constructor
  · have hr := unlock_run w f
    generalize unlock w f State.start = r at hr
    cases hr with
    | noUser _ => exact ⟨[], [], [], _, rfl⟩
    | negative _ _ => exact ⟨[], [], [], _, rfl⟩
    | insane _ _ => exact ⟨[], [], [], _, rfl⟩
    | statError _ _ _ _ => exact ⟨[], [], [], _, rfl⟩
    | notFound _ _ _ _ => exact ⟨[], [], [], _, rfl⟩
    | rpcPassError _ _ _ _ =>
      simp only [promptEvents, rpcPassword_label]
      exact ⟨[], [], [], _, rfl⟩
    | readError _ _ _ _ _ _ =>
      simp only [traceToRead, promptEvents, rpcPassword_label, List.cons_append,
        List.nil_append]
      exact ⟨[], [], [], _, rfl⟩
    | newError rpcPass certs _ _ _ _ _ _ =>
      simp only [traceToNew, traceToRead, promptEvents, connConfigOf,
        rpcPassword_label, List.cons_append, List.nil_append]
      exact ⟨rpcPass, certs, [], _, rfl⟩
    | passError rpcPass certs _ _ _ _ _ _ _ =>
      simp only [traceToPass, traceToNew, traceToRead, promptEvents, connConfigOf,
        rpcPassword_label, walletPassphrase_label, List.cons_append, List.nil_append]
      exact ⟨rpcPass, certs, [], _, rfl⟩
    | callError rpcPass certs pass _ _ _ _ _ _ _ _ =>
      simp only [traceToCall, traceToPass, traceToNew, traceToRead, promptEvents,
        connConfigOf, rpcPassword_label, walletPassphrase_label, List.cons_append,
        List.nil_append]
      exact ⟨rpcPass, certs, pass, _, rfl⟩
    | success rpcPass certs pass _ _ _ _ _ _ _ =>
      simp only [traceToCall, traceToPass, traceToNew, traceToRead, promptEvents,
        connConfigOf, rpcPassword_label, walletPassphrase_label, List.cons_append,
        List.nil_append]
      exact ⟨rpcPass, certs, pass, [], rfl⟩
  · intro hf hs e hr rpcPass hp
    rw [unlock_readError w f hf rpcPass e hs hp hr]
    simp only [traceToRead, promptEvents, rpcPassword_label, List.cons_append,
      List.nil_append]

/-- Witness for C9 (amended): a certificate that exists but cannot be read,
with the RPC password prompt answered "pw". -/
theorem step_order_witness :
    unlock worldUnreadable flagsAlice State.start
      = (some (.lib errDenied),
          { trace := [.stat (lit "rpc.cert"), .stdout (lit "RPC password: "),
              .readPassword, .stdout (lit "\n"), .readFile (lit "rpc.cert")],
            reads := 1 }) :=
  (step_order worldUnreadable flagsAlice).2 (by decide) rfl errDenied rfl (lit "pw") rfl

end WalletPassphrase
